import Mathlib

/-!
Shallow embedding of src/src/machines/dataFetch.machine.ts (pleme-hooks).

Two XState v5 machines are modelled:
  - createDataFetchMachine  (single-fetch controller)
  - createPaginatedFetchMachine (paginated controller)

Modelling conventions:
  - JavaScript values carried as data are modelled by the type JSVal, with
    vnull standing for null; JS truthiness is the function truthy.
  - Errors are modelled as strings (only their identity matters).
  - Date.now() is modelled by an explicit time parameter (now : Nat) passed
    to each step; the actions that read the clock receive it.
  - The invoked promise actors are modelled by resolution events
    (FetchDone / FetchError, PageDone / PageError) that the step function
    handles only in the loading state, mirroring XState semantics where an
    invoked actor is cancelled when its state is exited, so a late
    resolution is never delivered.
  - The transient checkingCache state (an always transition) is resolved
    within the same step, as XState resolves always transitions inside the
    same macrostep.
  - XState v5 runs actions in document order and assign updates take effect
    immediately for subsequent actions, so composed actions are applied in
    the listed order (e.g. onDone of the paginated machine applies
    appendItems, then updatePagination on the already-appended context).
-/

/-- A JavaScript value as carried by the machines (null included). -/
inductive JSVal where
  | vnull : JSVal
  | vbool : Bool → JSVal
  | vnum : Int → JSVal
  | vstr : String → JSVal
  deriving DecidableEq, Repr

/-- JavaScript truthiness of a JSVal. -/
def truthy : JSVal → Bool
  | JSVal.vnull => false
  | JSVal.vbool b => b
  | JSVal.vnum n => n != 0
  | JSVal.vstr s => s != ""

/-- A cache entry: the object stored by cacheData, with data and timestamp. -/
structure CacheEntry where
  data : JSVal
  timestamp : Nat
  deriving DecidableEq, Repr

/-- FetchContext of the single-fetch machine (null data modelled as vnull). -/
structure FetchContext where
  data : JSVal
  error : Option String
  retries : Nat
  maxRetries : Nat
  retryDelay : Nat
  cache : Option CacheEntry
  cacheTime : Nat
  deriving DecidableEq, Repr

/-- States of the single-fetch machine. -/
inductive FetchStateTag where
  | idle | checkingCache | cached | loading | retrying | success | error
  deriving DecidableEq, Repr

/-- Events of the single-fetch machine; FetchDone and FetchError are the
resolutions of the invoked fetchData actor, RetryElapsed is the delayedRetry
after-timer firing. -/
inductive FetchEvent where
  | FETCH : FetchEvent
  | RETRY : FetchEvent
  | RESET : FetchEvent
  | CANCEL : FetchEvent
  | FetchDone : JSVal → FetchEvent
  | FetchError : String → FetchEvent
  | RetryElapsed : FetchEvent
  deriving DecidableEq, Repr

/-- Action setData: data := event.output, error := null. -/
def setData (out : JSVal) (c : FetchContext) : FetchContext :=
  { c with data := out, error := none }

/-- Action setCachedData: data := context.cache?.data || null, error := null.
The JS || operator falls back to null when the cached data is falsy. -/
def setCachedData (c : FetchContext) : FetchContext :=
  { c with
    data := match c.cache with
      | some e => if truthy e.data then e.data else JSVal.vnull
      | none => JSVal.vnull,
    error := none }

/-- Action setError: error := event.error. -/
def setError (err : String) (c : FetchContext) : FetchContext :=
  { c with error := some err }

/-- Action cacheData: stores a cache entry stamped with the current time when
cacheTime > 0 and context.data is truthy, otherwise stores null. -/
def cacheData (now : Nat) (c : FetchContext) : FetchContext :=
  { c with
    cache := if 0 < c.cacheTime then
        (if truthy c.data then some ⟨c.data, now⟩ else none)
      else none }

/-- Action clearCache: cache := null. -/
def clearCache (c : FetchContext) : FetchContext :=
  { c with cache := none }

/-- Action incrementRetries. -/
def incrementRetries (c : FetchContext) : FetchContext :=
  { c with retries := c.retries + 1 }

/-- Action resetRetries. -/
def resetRetries (c : FetchContext) : FetchContext :=
  { c with retries := 0 }

/-- Action resetContext: data, error, retries, cache back to initial values
(configuration fields maxRetries, retryDelay, cacheTime are untouched). -/
def resetContext (c : FetchContext) : FetchContext :=
  { c with data := JSVal.vnull, error := none, retries := 0, cache := none }

/-- The delayedRetry delay function: retryDelay * (retries + 1), evaluated on
the context current when the retrying state is entered. -/
def delayedRetry (c : FetchContext) : Nat :=
  c.retryDelay * (c.retries + 1)

/-- Guard of the checkingCache always transition: a cache entry exists and
its age (now - timestamp) is strictly below cacheTime. -/
def checkCacheGuard (now : Nat) (c : FetchContext) : Bool :=
  match c.cache with
  | none => false
  | some e => decide (now - e.timestamp < c.cacheTime)

/-- Initial context of createDataFetchMachine for the given options
(defaults in the source: retryCount = 0, retryDelay = 1000, cacheTime = 0). -/
def initialFetchContext (retryCount retryDelay cacheTime : Nat) : FetchContext :=
  ⟨JSVal.vnull, none, 0, retryCount, retryDelay, none, cacheTime⟩

/-- One macrostep of the single-fetch machine: state and context before the
event, the event, and the current time; transient always transitions
(checkingCache) are resolved within the step. Unhandled events leave the
machine unchanged; resolution events are only handled in loading, as XState
cancels the invoked actor on exit. -/
def fetchStep (now : Nat) (s : FetchStateTag) (c : FetchContext) (e : FetchEvent) :
    FetchStateTag × FetchContext :=
  match s, e with
  | FetchStateTag.idle, FetchEvent.FETCH =>
      if 0 < c.cacheTime then
        -- target checkingCache, whose always transition resolves at once
        if checkCacheGuard now c then (FetchStateTag.cached, setCachedData c)
        else (FetchStateTag.loading, c)
      else (FetchStateTag.loading, c)
  | FetchStateTag.idle, FetchEvent.RESET => (FetchStateTag.idle, resetContext c)
  | FetchStateTag.checkingCache, _ =>
      if checkCacheGuard now c then (FetchStateTag.cached, setCachedData c)
      else (FetchStateTag.loading, c)
  | FetchStateTag.cached, FetchEvent.FETCH => (FetchStateTag.loading, clearCache c)
  | FetchStateTag.cached, FetchEvent.RESET => (FetchStateTag.idle, resetContext c)
  | FetchStateTag.loading, FetchEvent.FetchDone v =>
      (FetchStateTag.success, resetRetries (cacheData now (setData v c)))
  | FetchStateTag.loading, FetchEvent.FetchError err =>
      if c.retries < c.maxRetries then (FetchStateTag.retrying, incrementRetries c)
      else (FetchStateTag.error, setError err c)
  | FetchStateTag.loading, FetchEvent.CANCEL => (FetchStateTag.idle, c)
  | FetchStateTag.retrying, FetchEvent.RetryElapsed => (FetchStateTag.loading, c)
  | FetchStateTag.retrying, FetchEvent.CANCEL => (FetchStateTag.idle, c)
  | FetchStateTag.retrying, FetchEvent.RESET => (FetchStateTag.idle, resetContext c)
  | FetchStateTag.success, FetchEvent.FETCH => (FetchStateTag.loading, c)
  | FetchStateTag.success, FetchEvent.RESET => (FetchStateTag.idle, resetContext c)
  | FetchStateTag.error, FetchEvent.RETRY => (FetchStateTag.loading, resetRetries c)
  | FetchStateTag.error, FetchEvent.FETCH => (FetchStateTag.loading, resetRetries c)
  | FetchStateTag.error, FetchEvent.RESET => (FetchStateTag.idle, resetContext c)
  | _, _ => (s, c)

/-- Run the single-fetch machine from a given configuration over a list of
timestamped events. -/
def fetchRunFrom (p : FetchStateTag × FetchContext)
    (evs : List (Nat × FetchEvent)) : FetchStateTag × FetchContext :=
  evs.foldl (fun q te => fetchStep te.1 q.1 q.2 te.2) p

/-- Run the single-fetch machine from its initial state (idle) and the given
initial context. -/
def fetchRun (c : FetchContext) (evs : List (Nat × FetchEvent)) :
    FetchStateTag × FetchContext :=
  fetchRunFrom (FetchStateTag.idle, c) evs

/-- PaginatedContext of the paginated machine. -/
structure PaginatedContext where
  items : List JSVal
  total : Int
  page : Nat
  limit : Nat
  loading : Bool
  error : Option String
  hasMore : Bool
  deriving DecidableEq, Repr

/-- States of the paginated machine. -/
inductive PagStateTag where
  | idle | loading | error
  deriving DecidableEq, Repr

/-- Events of the paginated machine; PageDone and PageError are the
resolutions of the invoked fetchPage actor. -/
inductive PagEvent where
  | LOAD_PAGE : Nat → PagEvent
  | LOAD_MORE : PagEvent
  | RESET : PagEvent
  | PageDone : List JSVal → Int → PagEvent
  | PageError : String → PagEvent
  deriving DecidableEq, Repr

/-- Action setPage (as fired by a LOAD_PAGE event carrying the target page). -/
def setPage (n : Nat) (c : PaginatedContext) : PaginatedContext :=
  { c with page := n }

/-- Action incrementPage. -/
def incrementPage (c : PaginatedContext) : PaginatedContext :=
  { c with page := c.page + 1 }

/-- Action setLoading (entry action of the loading state). -/
def setLoading (c : PaginatedContext) : PaginatedContext :=
  { c with loading := true }

/-- Action clearLoading. -/
def clearLoading (c : PaginatedContext) : PaginatedContext :=
  { c with loading := false }

/-- Action appendItems: replace items when the current page is 1, otherwise
append the returned items. -/
def appendItems (its : List JSVal) (c : PaginatedContext) : PaginatedContext :=
  { c with items := if c.page = 1 then its else c.items ++ its }

/-- Action updatePagination: total := output.total and
hasMore := context.items.length + output.items.length < output.total, where
context.items is the context as updated by the preceding appendItems action
(XState v5 assigns apply in order). -/
def updatePagination (its : List JSVal) (tot : Int) (c : PaginatedContext) :
    PaginatedContext :=
  { c with
    total := tot,
    hasMore := decide ((c.items.length : Int) + its.length < tot) }

/-- Action setErrorState. -/
def setErrorState (err : String) (c : PaginatedContext) : PaginatedContext :=
  { c with error := some err }

/-- Action resetPaginationContext (limit is untouched). -/
def resetPaginationContext (c : PaginatedContext) : PaginatedContext :=
  { c with items := [], total := 0, page := 1, loading := false,
           error := none, hasMore := true }

/-- Initial context of createPaginatedFetchMachine (default limit 20). -/
def initialPaginatedContext (limit : Nat) : PaginatedContext :=
  ⟨[], 0, 1, limit, false, none, true⟩

/-- One macrostep of the paginated machine. The loading state handles no
external events; the setLoading entry action is applied on every transition
into loading. -/
def pagStep (s : PagStateTag) (c : PaginatedContext) (e : PagEvent) :
    PagStateTag × PaginatedContext :=
  match s, e with
  | PagStateTag.idle, PagEvent.LOAD_PAGE n =>
      (PagStateTag.loading, setLoading (setPage n c))
  | PagStateTag.idle, PagEvent.LOAD_MORE =>
      if c.hasMore && !c.loading then
        (PagStateTag.loading, setLoading (incrementPage c))
      else (PagStateTag.idle, c)
  | PagStateTag.idle, PagEvent.RESET => (PagStateTag.idle, resetPaginationContext c)
  | PagStateTag.loading, PagEvent.PageDone its tot =>
      (PagStateTag.idle, clearLoading (updatePagination its tot (appendItems its c)))
  | PagStateTag.loading, PagEvent.PageError err =>
      (PagStateTag.error, clearLoading (setErrorState err c))
  | PagStateTag.error, PagEvent.LOAD_PAGE n =>
      (PagStateTag.loading, setLoading (setPage n c))
  | PagStateTag.error, PagEvent.LOAD_MORE =>
      -- no incrementPage action on this transition in the source
      if c.hasMore then (PagStateTag.loading, setLoading c)
      else (PagStateTag.error, c)
  | PagStateTag.error, PagEvent.RESET => (PagStateTag.idle, resetPaginationContext c)
  | _, _ => (s, c)

/-- Run the paginated machine from a given configuration over events. -/
def pagRunFrom (p : PagStateTag × PaginatedContext) (evs : List PagEvent) :
    PagStateTag × PaginatedContext :=
  evs.foldl (fun q e => pagStep q.1 q.2 e) p

/-- Run the paginated machine from its initial state (idle) and context. -/
def pagRun (limit : Nat) (evs : List PagEvent) : PagStateTag × PaginatedContext :=
  pagRunFrom (PagStateTag.idle, initialPaginatedContext limit) evs

/-- The context the single-fetch machine has while loading in a run started
with options (retryCount = k, retryDelay = d, cacheTime = 0) after r failed
attempts: only the retries field differs from the initial context. -/
def loadingCtx (k d r : Nat) : FetchContext :=
  ⟨JSVal.vnull, none, r, k, d, none, 0⟩

/-- j failure cycles: the invoked fetch rejects, then the delayedRetry timer
fires, j times in a row. -/
def failCycles (err : String) : Nat → List (Nat × FetchEvent)
  | 0 => []
  | j + 1 =>
      (0, FetchEvent.FetchError err) :: (0, FetchEvent.RetryElapsed) ::
        failCycles err j

theorem fetchRunFrom_cons (p : FetchStateTag × FetchContext)
    (te : Nat × FetchEvent) (evs : List (Nat × FetchEvent)) :
    fetchRunFrom p (te :: evs) = fetchRunFrom (fetchStep te.1 p.1 p.2 te.2) evs := rfl

theorem fetchRunFrom_append (p : FetchStateTag × FetchContext)
    (l1 l2 : List (Nat × FetchEvent)) :
    fetchRunFrom p (l1 ++ l2) = fetchRunFrom (fetchRunFrom p l1) l2 :=
  List.foldl_append _ _ _ _

theorem fetchRunFrom_failCycles (err : String) (k d j : Nat) :
    ∀ r : Nat, r + j ≤ k →
      fetchRunFrom (FetchStateTag.loading, loadingCtx k d r) (failCycles err j) =
        (FetchStateTag.loading, loadingCtx k d (r + j)) := by
  induction j with
  | zero => intro r _; simp [failCycles, fetchRunFrom]
  | succ n ih =>
      intro r h
      have hr : r < k := by omega
      have h1 : fetchStep 0 FetchStateTag.loading (loadingCtx k d r)
          (FetchEvent.FetchError err) =
          (FetchStateTag.retrying, loadingCtx k d (r + 1)) := by
        simp [fetchStep, loadingCtx, incrementRetries, hr]
      have h2 : fetchRunFrom (FetchStateTag.loading, loadingCtx k d r)
          (failCycles err (n + 1)) =
          fetchRunFrom (FetchStateTag.loading, loadingCtx k d (r + 1))
            (failCycles err n) := by
        rw [failCycles, fetchRunFrom_cons]
        simp only [h1]
        rw [fetchRunFrom_cons]
        rfl
      rw [h2, ih (r + 1) (by omega)]
      have heq : r + 1 + n = r + (n + 1) := by omega
      rw [heq]

theorem fetchRun_to_loading (err : String) (k d j : Nat) (h : j ≤ k) :
    fetchRun (initialFetchContext k d 0)
        ((0, FetchEvent.FETCH) :: failCycles err j) =
      (FetchStateTag.loading, loadingCtx k d j) := by
  have h0 : fetchStep 0 FetchStateTag.idle (initialFetchContext k d 0)
      FetchEvent.FETCH = (FetchStateTag.loading, loadingCtx k d 0) := by
    simp [fetchStep, initialFetchContext, loadingCtx]
  rw [fetchRun, fetchRunFrom_cons]
  simp only [h0]
  have := fetchRunFrom_failCycles err k d j 0 (by omega)
  simpa using this

/-- Claim C8: CANCEL received while loading returns the single-fetch machine
to idle with the context unchanged, and a resolution of the in-flight fetch
(success or failure) delivered afterwards leaves state and context
untouched. -/
theorem c8_cancel_is_pure :
    ∀ (t : Nat) (c : FetchContext),
      fetchStep t FetchStateTag.loading c FetchEvent.CANCEL =
        (FetchStateTag.idle, c) ∧
      (∀ (u : Nat) (v : JSVal),
        fetchStep u FetchStateTag.idle c (FetchEvent.FetchDone v) =
          (FetchStateTag.idle, c)) ∧
      (∀ (u : Nat) (err : String),
        fetchStep u FetchStateTag.idle c (FetchEvent.FetchError err) =
          (FetchStateTag.idle, c)) := by
  intro t c
  exact ⟨rfl, fun u v => rfl, fun u err => rfl⟩

/-- Claim C9: with caching enabled (cacheTime > 0), a successful fetch whose
value is falsy stores null in the cache (erasing any previous entry), while a
truthy value is cached with the current timestamp; either way the machine
reaches success. -/
theorem c9_falsy_value_erases_cache :
    ∀ (t : Nat) (c : FetchContext) (v : JSVal), 0 < c.cacheTime →
      (fetchStep t FetchStateTag.loading c (FetchEvent.FetchDone v)).1 =
        FetchStateTag.success ∧
      (truthy v = false →
        (fetchStep t FetchStateTag.loading c (FetchEvent.FetchDone v)).2.cache =
          none) ∧
      (truthy v = true →
        (fetchStep t FetchStateTag.loading c (FetchEvent.FetchDone v)).2.cache =
          some ⟨v, t⟩) := by
  intro t c v h
  refine ⟨rfl, ?_, ?_⟩ <;> intro hv <;>
    simp [fetchStep, resetRetries, cacheData, setData, h, hv]

theorem c9_falsy_value_erases_cache_witness :
    0 < ({ initialFetchContext 0 1000 500 with
            cache := some ⟨JSVal.vstr "A", 0⟩ } : FetchContext).cacheTime ∧
    (fetchStep 7 FetchStateTag.loading
        { initialFetchContext 0 1000 500 with cache := some ⟨JSVal.vstr "A", 0⟩ }
        (FetchEvent.FetchDone (JSVal.vnum 0))).2.cache = none :=
  ⟨by decide,
    (c9_falsy_value_erases_cache 7
      { initialFetchContext 0 1000 500 with cache := some ⟨JSVal.vstr "A", 0⟩ }
      (JSVal.vnum 0) (by decide)).2.1 (by decide)⟩

/-- Claim C1 counterexample: with cacheTime = 1000, a fetch succeeding at
t = 0 with value "A" leaves the machine in success holding cache entry
("A", 0); a FETCH issued at t = 500 (well inside the window) transitions
directly to loading (a fresh fetch), not to cached, because only the idle
state routes FETCH through checkingCache. -/
theorem c1_fetch_from_success_counterexample :
    (fetchRun (initialFetchContext 0 1000 1000)
        [(0, FetchEvent.FETCH), (0, FetchEvent.FetchDone (JSVal.vstr "A")),
         (500, FetchEvent.FETCH)]).1 = FetchStateTag.loading ∧
    (fetchRun (initialFetchContext 0 1000 1000)
        [(0, FetchEvent.FETCH), (0, FetchEvent.FetchDone (JSVal.vstr "A"))]).2.cache =
      some ⟨JSVal.vstr "A", 0⟩ ∧
    (fetchRun (initialFetchContext 0 1000 1000)
        [(0, FetchEvent.FETCH), (0, FetchEvent.FetchDone (JSVal.vstr "A")),
         (500, FetchEvent.FETCH)]).1 ≠ FetchStateTag.cached := by
  exact ⟨rfl, rfl, by decide⟩

/-- Claim C1 amended: the cache-window dichotomy holds for a FETCH received
in idle — a cache entry stored at t0 is served (state cached, cached value
published) for any FETCH at t < t0 + cacheTime and a fresh fetch is started
(state loading) for t ≥ t0 + cacheTime — while a FETCH received in success or
error always starts a fresh fetch regardless of the cache. -/
theorem c1_cache_window_amended :
    ∀ (t t0 : Nat) (v : JSVal) (c : FetchContext),
      0 < c.cacheTime → c.cache = some ⟨v, t0⟩ →
      ((t < t0 + c.cacheTime →
          fetchStep t FetchStateTag.idle c FetchEvent.FETCH =
            (FetchStateTag.cached, setCachedData c)) ∧
       (t0 + c.cacheTime ≤ t →
          fetchStep t FetchStateTag.idle c FetchEvent.FETCH =
            (FetchStateTag.loading, c)) ∧
       fetchStep t FetchStateTag.success c FetchEvent.FETCH =
         (FetchStateTag.loading, c) ∧
       fetchStep t FetchStateTag.error c FetchEvent.FETCH =
         (FetchStateTag.loading, resetRetries c)) := by
  intro t t0 v c hw hc
  refine ⟨?_, ?_, rfl, rfl⟩
  · intro ht
    have hg : checkCacheGuard t c = true := by
      simp [checkCacheGuard, hc]
      omega
    simp [fetchStep, hw, hg]
  · intro ht
    have hg : checkCacheGuard t c = false := by
      simp [checkCacheGuard, hc]
      omega
    simp [fetchStep, hw, hg]

theorem c1_cache_window_amended_witness :
    0 < ({ initialFetchContext 0 1000 1000 with
            cache := some ⟨JSVal.vstr "A", 0⟩ } : FetchContext).cacheTime ∧
    fetchStep 500 FetchStateTag.idle
        { initialFetchContext 0 1000 1000 with cache := some ⟨JSVal.vstr "A", 0⟩ }
        FetchEvent.FETCH =
      (FetchStateTag.cached,
        setCachedData
          { initialFetchContext 0 1000 1000 with
              cache := some ⟨JSVal.vstr "A", 0⟩ }) :=
  ⟨by decide,
    (c1_cache_window_amended 500 0 (JSVal.vstr "A")
      { initialFetchContext 0 1000 1000 with cache := some ⟨JSVal.vstr "A", 0⟩ }
      (by decide) (by decide)).1 (by decide)⟩

/-- Claim C6 counterexample: the loading state of the single-fetch machine
has no RESET transition, so a RESET received while loading is ignored: the
machine stays in loading instead of returning to idle. -/
theorem c6_reset_in_loading_counterexample :
    (fetchRun (initialFetchContext 0 1000 0)
        [(0, FetchEvent.FETCH), (0, FetchEvent.RESET)]).1 =
      FetchStateTag.loading ∧
    (fetchRun (initialFetchContext 0 1000 0)
        [(0, FetchEvent.FETCH), (0, FetchEvent.RESET)]).1 ≠
      FetchStateTag.idle := by
  exact ⟨rfl, by decide⟩

/-- Claim C6 amended: RESET returns both machines to idle with the context
restored to its construction-time initial values from every resting state
except loading; in loading (both machines) RESET is ignored and changes
neither state nor context. -/
theorem c6_reset_amended :
    ∀ (t : Nat) (c : FetchContext) (p : PaginatedContext),
      fetchStep t FetchStateTag.idle c FetchEvent.RESET =
        (FetchStateTag.idle,
          initialFetchContext c.maxRetries c.retryDelay c.cacheTime) ∧
      fetchStep t FetchStateTag.cached c FetchEvent.RESET =
        (FetchStateTag.idle,
          initialFetchContext c.maxRetries c.retryDelay c.cacheTime) ∧
      fetchStep t FetchStateTag.retrying c FetchEvent.RESET =
        (FetchStateTag.idle,
          initialFetchContext c.maxRetries c.retryDelay c.cacheTime) ∧
      fetchStep t FetchStateTag.success c FetchEvent.RESET =
        (FetchStateTag.idle,
          initialFetchContext c.maxRetries c.retryDelay c.cacheTime) ∧
      fetchStep t FetchStateTag.error c FetchEvent.RESET =
        (FetchStateTag.idle,
          initialFetchContext c.maxRetries c.retryDelay c.cacheTime) ∧
      fetchStep t FetchStateTag.loading c FetchEvent.RESET =
        (FetchStateTag.loading, c) ∧
      pagStep PagStateTag.idle p PagEvent.RESET =
        (PagStateTag.idle, initialPaginatedContext p.limit) ∧
      pagStep PagStateTag.error p PagEvent.RESET =
        (PagStateTag.idle, initialPaginatedContext p.limit) ∧
      pagStep PagStateTag.loading p PagEvent.RESET =
        (PagStateTag.loading, p) := by
  intro t c p
  exact ⟨rfl, rfl, rfl, rfl, rfl, rfl, rfl, rfl, rfl⟩

/-- Claim C3 counterexample: with retryDelayBase = 100, after the first
failure the machine enters retrying with retries already incremented to 1, so
the scheduled delayedRetry is 100 * (1 + 1) = 200 ms — not
retryDelayBase * 1 = 100 ms as the claim predicts for retry attempt 1. -/
theorem c3_first_delay_counterexample :
    (fetchRun (initialFetchContext 2 100 0)
        [(0, FetchEvent.FETCH), (0, FetchEvent.FetchError "E")]).1 =
      FetchStateTag.retrying ∧
    delayedRetry (fetchRun (initialFetchContext 2 100 0)
        [(0, FetchEvent.FETCH), (0, FetchEvent.FetchError "E")]).2 = 200 ∧
    (200 : Nat) ≠ 100 * 1 := by
  exact ⟨rfl, rfl, by decide⟩

/-- Claim C3 amended: the backoff delay scheduled before retry attempt i
(1-indexed) equals retryDelayBase * (i + 1) — the incrementRetries action runs
on the transition into retrying, before the delayedRetry delay is evaluated —
and the delay sequence is still monotonically non-decreasing. -/
theorem c3_backoff_amended :
    ∀ (base k i : Nat) (err : String), 1 ≤ i → i ≤ k →
      fetchRun (initialFetchContext k base 0)
          (((0, FetchEvent.FETCH) :: failCycles err (i - 1)) ++
            [(0, FetchEvent.FetchError err)]) =
        (FetchStateTag.retrying, loadingCtx k base i) ∧
      delayedRetry (loadingCtx k base i) = base * (i + 1) ∧
      base * (i + 1) ≤ base * ((i + 1) + 1) := by
  intro base k i err h1 h2
  refine ⟨?_, rfl, Nat.mul_le_mul le_rfl (by omega)⟩
  have hrun := fetchRun_to_loading err k base (i - 1) (by omega)
  have happ : fetchRun (initialFetchContext k base 0)
      (((0, FetchEvent.FETCH) :: failCycles err (i - 1)) ++
        [(0, FetchEvent.FetchError err)]) =
      fetchRunFrom (FetchStateTag.loading, loadingCtx k base (i - 1))
        [(0, FetchEvent.FetchError err)] := by
    rw [fetchRun, fetchRunFrom_append, ← fetchRun, hrun]
  rw [happ, fetchRunFrom_cons]
  have hlt : i - 1 < k := by omega
  have hstep : fetchStep 0 FetchStateTag.loading (loadingCtx k base (i - 1))
      (FetchEvent.FetchError err) =
      (FetchStateTag.retrying, loadingCtx k base (i - 1 + 1)) := by
    simp [fetchStep, loadingCtx, incrementRetries, hlt]
  rw [hstep]
  have heq : i - 1 + 1 = i := by omega
  rw [heq]
  rfl

theorem c3_backoff_amended_witness :
    fetchRun (initialFetchContext 2 100 0)
        (((0, FetchEvent.FETCH) :: failCycles "E" 0) ++
          [(0, FetchEvent.FetchError "E")]) =
      (FetchStateTag.retrying, loadingCtx 2 100 1) ∧
    delayedRetry (loadingCtx 2 100 1) = 100 * 2 :=
  ⟨(c3_backoff_amended 100 2 1 "E" (by decide) (by decide)).1,
    (c3_backoff_amended 100 2 1 "E" (by decide) (by decide)).2.1⟩

/-- Claim C4: with maxRetries = k, a persistently failing fetch performs
exactly k automatic retries — after j ≤ k failure cycles the machine is back
in loading with retries = j, each failure with retries j < k moves to
retrying with retries j + 1 — and the failure arriving with retries = k (the
(k+1)-th failure) transitions to error; a success on any attempt reaches the
success state with retries reset to 0. -/
theorem c4_bounded_retries :
    ∀ (k d j : Nat) (err : String), j ≤ k →
      fetchRun (initialFetchContext k d 0)
          ((0, FetchEvent.FETCH) :: failCycles err j) =
        (FetchStateTag.loading, loadingCtx k d j) ∧
      (j < k →
        fetchStep 0 FetchStateTag.loading (loadingCtx k d j)
            (FetchEvent.FetchError err) =
          (FetchStateTag.retrying, loadingCtx k d (j + 1))) ∧
      fetchStep 0 FetchStateTag.loading (loadingCtx k d k)
          (FetchEvent.FetchError err) =
        (FetchStateTag.error, setError err (loadingCtx k d k)) ∧
      (∀ (t : Nat) (c : FetchContext) (v : JSVal),
        (fetchStep t FetchStateTag.loading c (FetchEvent.FetchDone v)).1 =
          FetchStateTag.success ∧
        (fetchStep t FetchStateTag.loading c (FetchEvent.FetchDone v)).2.retries =
          0) := by
  intro k d j err h
  refine ⟨fetchRun_to_loading err k d j h, ?_, ?_, ?_⟩
  · intro hj
    simp [fetchStep, loadingCtx, incrementRetries, hj]
  · simp [fetchStep, loadingCtx]
  · intro t c v
    exact ⟨rfl, rfl⟩

theorem c4_bounded_retries_witness :
    fetchRun (initialFetchContext 2 100 0)
        ((0, FetchEvent.FETCH) :: failCycles "E" 2) =
      (FetchStateTag.loading, loadingCtx 2 100 2) ∧
    fetchStep 0 FetchStateTag.loading (loadingCtx 2 100 2)
        (FetchEvent.FetchError "E") =
      (FetchStateTag.error, setError "E" (loadingCtx 2 100 2)) ∧
    (fetchStep 0 FetchStateTag.loading (loadingCtx 2 100 2)
        (FetchEvent.FetchDone (JSVal.vstr "A"))).2.retries = 0 :=
  ⟨(c4_bounded_retries 2 100 2 "E" (by decide)).1,
    (c4_bounded_retries 2 100 2 "E" (by decide)).2.2.1,
    ((c4_bounded_retries 2 100 2 "E" (by decide)).2.2.2 0
      (loadingCtx 2 100 2) (JSVal.vstr "A")).2⟩

theorem fetchStep_maxRetries_const (t : Nat) (s : FetchStateTag)
    (c : FetchContext) (e : FetchEvent) :
    (fetchStep t s c e).2.maxRetries = c.maxRetries := by
  cases s <;> cases e <;>
    simp only [fetchStep, setData, setCachedData, setError, cacheData,
      clearCache, incrementRetries, resetRetries, resetContext] <;>
    split_ifs <;> rfl

theorem fetchStep_retries_le (t : Nat) (s : FetchStateTag) (c : FetchContext)
    (e : FetchEvent) (h : c.retries ≤ c.maxRetries) :
    (fetchStep t s c e).2.retries ≤ c.maxRetries := by
  cases s <;> cases e <;>
    simp only [fetchStep, setData, setCachedData, setError, cacheData,
      clearCache, incrementRetries, resetRetries, resetContext] <;>
    (try split_ifs) <;> simp_all <;> omega

theorem fetchRunFrom_retries_le (evs : List (Nat × FetchEvent))
    (p : FetchStateTag × FetchContext) (h : p.2.retries ≤ p.2.maxRetries) :
    (fetchRunFrom p evs).2.retries ≤ (fetchRunFrom p evs).2.maxRetries := by
  induction evs generalizing p with
  | nil => exact h
  | cons te rest ih =>
      rw [fetchRunFrom_cons]
      apply ih
      rw [fetchStep_maxRetries_const]
      exact fetchStep_retries_le te.1 p.1 p.2 te.2 h

theorem fetchRunFrom_maxRetries_const (evs : List (Nat × FetchEvent))
    (p : FetchStateTag × FetchContext) :
    (fetchRunFrom p evs).2.maxRetries = p.2.maxRetries := by
  induction evs generalizing p with
  | nil => rfl
  | cons te rest ih =>
      rw [fetchRunFrom_cons, ih, fetchStep_maxRetries_const]

/-- Claim C5 counterexample: with maxRetries = 1, the second failure moves
the machine to error, but retries is not reset to 0 on that transition — it
stays at maxRetries = 1 (it is only reset by RETRY or FETCH out of error). -/
theorem c5_error_retries_counterexample :
    (fetchRun (initialFetchContext 1 100 0)
        [(0, FetchEvent.FETCH), (0, FetchEvent.FetchError "E"),
         (0, FetchEvent.RetryElapsed), (0, FetchEvent.FetchError "E")]).1 =
      FetchStateTag.error ∧
    (fetchRun (initialFetchContext 1 100 0)
        [(0, FetchEvent.FETCH), (0, FetchEvent.FetchError "E"),
         (0, FetchEvent.RetryElapsed), (0, FetchEvent.FetchError "E")]).2.retries =
      1 ∧
    (1 : Nat) ≠ 0 := by
  exact ⟨rfl, rfl, by decide⟩

/-- Claim C5 amended: in every reachable configuration of the single-fetch
machine retries never exceeds maxRetries (which stays equal to the configured
retryCount); the failure that would exceed it transitions to error with
retries kept at maxRetries — it is reset to 0 only by the RETRY or FETCH
transition out of error. -/
theorem c5_retries_bound_amended :
    ∀ (k d w : Nat) (evs : List (Nat × FetchEvent)),
      ((fetchRun (initialFetchContext k d w) evs).2.retries ≤ k ∧
       (fetchRun (initialFetchContext k d w) evs).2.maxRetries = k) ∧
      (∀ (t : Nat) (c : FetchContext) (err : String),
        c.retries = c.maxRetries →
          fetchStep t FetchStateTag.loading c (FetchEvent.FetchError err) =
            (FetchStateTag.error, setError err c)) ∧
      (∀ (t : Nat) (c : FetchContext),
        fetchStep t FetchStateTag.error c FetchEvent.RETRY =
          (FetchStateTag.loading, resetRetries c) ∧
        fetchStep t FetchStateTag.error c FetchEvent.FETCH =
          (FetchStateTag.loading, resetRetries c)) := by
  intro k d w evs
  have hmax : (fetchRun (initialFetchContext k d w) evs).2.maxRetries = k := by
    rw [fetchRun, fetchRunFrom_maxRetries_const]
    rfl
  refine ⟨⟨?_, hmax⟩, ?_, ?_⟩
  · have h1 : (fetchRun (initialFetchContext k d w) evs).2.retries ≤
        (fetchRun (initialFetchContext k d w) evs).2.maxRetries :=
      fetchRunFrom_retries_le evs
        (FetchStateTag.idle, initialFetchContext k d w) (Nat.zero_le _)
    omega
  · intro t c err h
    simp [fetchStep, h]
  · intro t c
    exact ⟨rfl, rfl⟩

theorem c5_retries_bound_amended_witness :
    (fetchRun (initialFetchContext 1 100 0)
        [(0, FetchEvent.FETCH), (0, FetchEvent.FetchError "E"),
         (0, FetchEvent.RetryElapsed), (0, FetchEvent.FetchError "E")]).2.retries ≤
      1 ∧
    fetchStep 0 FetchStateTag.loading (loadingCtx 1 100 1)
        (FetchEvent.FetchError "E") =
      (FetchStateTag.error, setError "E" (loadingCtx 1 100 1)) :=
  ⟨((c5_retries_bound_amended 1 100 0
      [(0, FetchEvent.FETCH), (0, FetchEvent.FetchError "E"),
       (0, FetchEvent.RetryElapsed), (0, FetchEvent.FetchError "E")]).1).1,
    (c5_retries_bound_amended 1 100 0 []).2.1 0 (loadingCtx 1 100 1) "E"
      (by decide)⟩

theorem pagRunFrom_cons (p : PagStateTag × PaginatedContext) (e : PagEvent)
    (evs : List PagEvent) :
    pagRunFrom p (e :: evs) = pagRunFrom (pagStep p.1 p.2 e) evs := rfl

/-- A full page of 20 items, as returned by the server in the spec scenario. -/
def page20 : List JSVal := List.replicate 20 (JSVal.vstr "x")

/-- Claim C2 failing input: with pageSize 20, page 1 and page 2 each return
20 items with total 45. After the page-2 load the accumulated items list has
length 40 < 45, yet hasMore is false: updatePagination runs after appendItems
(XState v5 assigns apply in order), so it computes
items.length + output.items.length = 40 + 20 = 60 < 45, double-counting the
just-appended page, where the claim (and the spec scenario) require
hasMore = (40 < 45) = true. -/
theorem c2_hasMore_after_page2 :
    (pagRun 20 [PagEvent.LOAD_PAGE 1, PagEvent.PageDone page20 45,
        PagEvent.LOAD_MORE, PagEvent.PageDone page20 45]).1 = PagStateTag.idle ∧
    (pagRun 20 [PagEvent.LOAD_PAGE 1, PagEvent.PageDone page20 45,
        PagEvent.LOAD_MORE, PagEvent.PageDone page20 45]).2.items.length = 40 ∧
    (pagRun 20 [PagEvent.LOAD_PAGE 1, PagEvent.PageDone page20 45,
        PagEvent.LOAD_MORE, PagEvent.PageDone page20 45]).2.total = 45 ∧
    (pagRun 20 [PagEvent.LOAD_PAGE 1, PagEvent.PageDone page20 45,
        PagEvent.LOAD_MORE, PagEvent.PageDone page20 45]).2.hasMore = false ∧
    ((40 : Int) < 45) := by
  exact ⟨rfl, rfl, rfl, rfl, by decide⟩

/-- Claim C7 counterexample: from the error state with current page 1 and
hasMore = true, LOAD_MORE starts a load of the same page 1 (the transition
has no incrementPage action), and the subsequent successful load replaces
the items list rather than appending to it: starting from items = [a], the
result is items = [b], not [a, b], with page still 1. -/
theorem c7_load_more_from_error_counterexample :
    (pagRun 20 [PagEvent.LOAD_PAGE 1, PagEvent.PageDone [JSVal.vstr "a"] 45,
        PagEvent.LOAD_PAGE 1, PagEvent.PageError "boom",
        PagEvent.LOAD_MORE, PagEvent.PageDone [JSVal.vstr "b"] 45]).2.page = 1 ∧
    (pagRun 20 [PagEvent.LOAD_PAGE 1, PagEvent.PageDone [JSVal.vstr "a"] 45,
        PagEvent.LOAD_PAGE 1, PagEvent.PageError "boom",
        PagEvent.LOAD_MORE]).1 = PagStateTag.loading ∧
    (pagRun 20 [PagEvent.LOAD_PAGE 1, PagEvent.PageDone [JSVal.vstr "a"] 45,
        PagEvent.LOAD_PAGE 1, PagEvent.PageError "boom",
        PagEvent.LOAD_MORE, PagEvent.PageDone [JSVal.vstr "b"] 45]).2.items =
      [JSVal.vstr "b"] ∧
    (pagRun 20 [PagEvent.LOAD_PAGE 1, PagEvent.PageDone [JSVal.vstr "a"] 45,
        PagEvent.LOAD_PAGE 1, PagEvent.PageError "boom",
        PagEvent.LOAD_MORE, PagEvent.PageDone [JSVal.vstr "b"] 45]).2.items ≠
      [JSVal.vstr "a", JSVal.vstr "b"] := by
  exact ⟨rfl, rfl, rfl, by decide⟩

/-- Claim C7 amended: a successful load whose current page is 1 replaces the
items list and one whose current page is not 1 appends; LOAD_MORE accepted
from idle (hasMore set, not loading) targets page current + 1, but LOAD_MORE
accepted from error (hasMore set) re-targets the current page unchanged,
with no incrementPage action. -/
theorem c7_load_semantics_amended :
    ∀ (c : PaginatedContext) (its : List JSVal) (tot : Int),
      (c.hasMore = true → c.loading = false →
        (pagStep PagStateTag.idle c PagEvent.LOAD_MORE).1 = PagStateTag.loading ∧
        (pagStep PagStateTag.idle c PagEvent.LOAD_MORE).2.page = c.page + 1) ∧
      (c.page = 1 →
        (pagStep PagStateTag.loading c (PagEvent.PageDone its tot)).2.items =
          its) ∧
      (c.page ≠ 1 →
        (pagStep PagStateTag.loading c (PagEvent.PageDone its tot)).2.items =
          c.items ++ its) ∧
      (c.hasMore = true →
        pagStep PagStateTag.error c PagEvent.LOAD_MORE =
          (PagStateTag.loading, setLoading c)) := by
  intro c its tot
  refine ⟨?_, ?_, ?_, ?_⟩
  · intro h1 h2
    constructor <;>
      simp [pagStep, h1, h2, setLoading, incrementPage]
  · intro h1
    simp [pagStep, clearLoading, updatePagination, appendItems, h1]
  · intro h1
    simp [pagStep, clearLoading, updatePagination, appendItems, h1]
  · intro h1
    simp [pagStep, h1]

theorem c7_load_semantics_amended_witness :
    (pagStep PagStateTag.idle (initialPaginatedContext 20)
        PagEvent.LOAD_MORE).2.page = (initialPaginatedContext 20).page + 1 ∧
    (pagStep PagStateTag.loading (initialPaginatedContext 20)
        (PagEvent.PageDone [JSVal.vstr "a"] 1)).2.items = [JSVal.vstr "a"] ∧
    pagStep PagStateTag.error (initialPaginatedContext 20) PagEvent.LOAD_MORE =
      (PagStateTag.loading, setLoading (initialPaginatedContext 20)) :=
  ⟨((c7_load_semantics_amended (initialPaginatedContext 20) [JSVal.vstr "a"] 1).1
      (by decide) (by decide)).2,
    (c7_load_semantics_amended (initialPaginatedContext 20) [JSVal.vstr "a"] 1).2.1
      (by decide),
    (c7_load_semantics_amended (initialPaginatedContext 20) [JSVal.vstr "a"] 1).2.2.2
      (by decide)⟩

theorem pagStep_loading_flag (s : PagStateTag) (c : PaginatedContext)
    (e : PagEvent) (h : c.loading = true ↔ s = PagStateTag.loading) :
    (pagStep s c e).2.loading = true ↔ (pagStep s c e).1 = PagStateTag.loading := by
  cases s <;> cases e <;>
    simp only [pagStep, setPage, incrementPage, setLoading, clearLoading,
      appendItems, updatePagination, setErrorState, resetPaginationContext] <;>
    (try split_ifs) <;> simp_all

theorem pagRunFrom_loading_flag (evs : List PagEvent)
    (p : PagStateTag × PaginatedContext)
    (h : p.2.loading = true ↔ p.1 = PagStateTag.loading) :
    (pagRunFrom p evs).2.loading = true ↔
      (pagRunFrom p evs).1 = PagStateTag.loading := by
  induction evs generalizing p with
  | nil => exact h
  | cons e rest ih =>
      rw [pagRunFrom_cons]
      exact ih _ (pagStep_loading_flag p.1 p.2 e h)

/-- Claim C10: in every reachable configuration of the paginated machine the
context field loading is true exactly when the machine is in the loading
state; in particular every snapshot taken in idle or error shows
loading = false. -/
theorem c10_loading_flag_invariant :
    ∀ (limit : Nat) (evs : List PagEvent),
      ((pagRun limit evs).2.loading = true ↔
        (pagRun limit evs).1 = PagStateTag.loading) := by
  intro limit evs
  exact pagRunFrom_loading_flag evs
    (PagStateTag.idle, initialPaginatedContext limit) (by simp [initialPaginatedContext])
